import Mathlib

/-!
Verification development for the ChatPulse backend (Discord OAuth2 dashboard).

The definitions below are a shallow embedding of the two security-relevant
parts of the code base:

* `auth.js` (`handleLogin`, `handleCallback`): the OAuth2 authorization-code
  flow with anti-CSRF state checking.  Remote HTTP calls are modelled by
  oracle functions returning a `FetchResult`; JavaScript truthiness checks on
  optional string fields are modelled by `jsFalsy`; the in-place mutation of
  `req.session` is modelled by explicit state passing of a `Session` record.
* the `GET /guilds` handler in `server.js` together with `getChannels` from
  `discord.js`: the guild reconciliation algorithm (membership filter,
  manage-server permission filter with BigInt arithmetic, sequential
  per-guild bot-installation probe with per-guild try/catch).

The value produced by `Math.random().toString(36).substring(2)` in
`handleLogin` enters the embedding as an explicit parameter, since the
floating-point random source is outside the model.
-/

namespace ChatPulse

/-- Minimal identity projection committed to the session on a successful
callback (`auth.js` lines 136-141). -/
structure UserProfile where
  id : String
  username : String
  avatar : Option String
  discriminator : String
deriving DecidableEq

/-- The server-side session record (`req.session`): `oauthState` set by
login and nulled on successful callback, `accessToken` and `user` set by the
callback.  `none` models both an absent field and an explicit `null`. -/
structure Session where
  oauthState : Option String
  accessToken : Option String
  user : Option UserProfile
deriving DecidableEq

/-- JavaScript truthiness test for an optional string field: `undefined`,
`null` and the empty string are falsy. -/
def jsFalsy : Option String → Bool
  | none => true
  | some s => s == ""

/-- The response sent to the browser: a 302 redirect or a
`res.status(st).send(body)`. -/
inductive HttpResponse where
  | redirect (location : String)
  | send (status : Nat) (body : String)
deriving DecidableEq

/-- Outcome of one remote HTTP call as seen by the calling handler:
a successful response carrying a parsed value, a non-ok response (the
`!response.ok` branch) carrying the error text, or a raised exception
(network failure, JSON parse failure, ...). -/
inductive FetchResult (α : Type) where
  | ok (value : α)
  | httpError (body : String)
  | thrown
deriving DecidableEq

/-- The `code` and `state` query parameters of the callback request. -/
structure CallbackQuery where
  code : Option String
  state : Option String
deriving DecidableEq

def msgNoState : String := "Login failed. Please try again. (no state received)"

def msgSessionExpired : String :=
  "Login failed. Please try again. (session expired - try logging in again)"

def msgInvalidState : String := "Login failed. Please try again. (invalid state)"

def msgMissingCode : String := "Login failed. Please try again. (missing code)"

def msgTokenError : String := "Login failed. Please try again. (token error)"

def msgUserFetchError : String := "Login failed. Please try again. (user fetch error)"

def msgCallbackError : String := "Login failed. Please try again. (callback error)"

/-- `encodeURIComponent` keeps ASCII alphanumerics and `- _ . ! ~ * ( )`
and the apostrophe (code 39) unescaped; everything else is percent-encoded
byte-wise.  Characters are compared by code point. -/
def isUnreservedURIChar (c : Char) : Bool :=
  c.isAlphanum || c.toNat = 45 || c.toNat = 95 || c.toNat = 46 || c.toNat = 33 ||
    c.toNat = 126 || c.toNat = 42 || c.toNat = 39 || c.toNat = 40 || c.toNat = 41

/-- Upper-case hexadecimal digit for a value below 16. -/
def hexDigitChar (n : Nat) : Char :=
  if n < 10 then Char.ofNat (48 + n) else Char.ofNat (55 + n)

/-- Percent-encode one byte as a three-character string. -/
def percentEncodeByte (b : UInt8) : String :=
  String.mk [Char.ofNat 37, hexDigitChar (b.toNat / 16), hexDigitChar (b.toNat % 16)]

/-- One character of `encodeURIComponent` output. -/
def encodeURIComponentChar (c : Char) : String :=
  if isUnreservedURIChar c then String.singleton c
  else String.join (((String.singleton c).toUTF8.toList).map percentEncodeByte)

/-- Model of the JavaScript `encodeURIComponent` builtin. -/
def encodeURIComponent (s : String) : String :=
  String.join (s.toList.map encodeURIComponentChar)

/-- The fixed OAuth scope list requested by `handleLogin`. -/
def oauthScopes : String := "identify guilds"

/-- The Discord authorization URL built in `auth.js` lines 30-32. -/
def discordAuthUrl (clientId redirectUri st : String) : String :=
  "https://discord.com/oauth2/authorize?client_id=" ++ clientId ++
    "&redirect_uri=" ++ encodeURIComponent redirectUri ++
    "&response_type=code&scope=" ++ encodeURIComponent oauthScopes ++
    "&state=" ++ st

/-- `handleLogin` from `auth.js`.  `newState` is the value produced by the
random state generator; `saveOk` is the outcome of `req.session.save`.
If the session already holds a truthy `accessToken` the handler redirects to
the dashboard without touching the session; otherwise it stores the fresh
state and, when the save succeeds, redirects to the provider. -/
def handleLogin (session : Session) (newState : String) (saveOk : Bool)
    (clientId redirectUri : String) : Session × HttpResponse :=
  if jsFalsy session.accessToken = false then
    (session, HttpResponse.redirect "/dashboard.html")
  else if saveOk then
    ({ session with oauthState := some newState },
      HttpResponse.redirect (discordAuthUrl clientId redirectUri newState))
  else
    ({ session with oauthState := some newState },
      HttpResponse.send 500 "Failed to initialize login")

/-- `handleCallback` from `auth.js`.  `tokenExchange` models the POST to the
token endpoint (given the `code`, returns the access token), `userFetch`
models the identity fetch (given the token, returns the profile).  The four
validation checks run in source order; the `try` block starts at the token
exchange, so a `thrown` outcome from either remote call is answered by the
generic 400 callback-error message.  The access token is written to the
session before the identity fetch; `oauthState` is nulled only on the fully
successful path (`auth.js` line 144). -/
def handleCallback (session : Session) (q : CallbackQuery)
    (tokenExchange : String → FetchResult String)
    (userFetch : String → FetchResult UserProfile) :
    Session × HttpResponse :=
  if jsFalsy q.state then
    (session, HttpResponse.send 400 msgNoState)
  else if jsFalsy session.oauthState then
    (session, HttpResponse.send 400 msgSessionExpired)
  else if q.state ≠ session.oauthState then
    (session, HttpResponse.send 400 msgInvalidState)
  else if jsFalsy q.code then
    (session, HttpResponse.send 400 msgMissingCode)
  else
    match tokenExchange (q.code.getD "") with
    | FetchResult.thrown => (session, HttpResponse.send 400 msgCallbackError)
    | FetchResult.httpError _ => (session, HttpResponse.send 400 msgTokenError)
    | FetchResult.ok token =>
      match userFetch token with
      | FetchResult.thrown =>
        ({ session with accessToken := some token },
          HttpResponse.send 400 msgCallbackError)
      | FetchResult.httpError _ =>
        ({ session with accessToken := some token },
          HttpResponse.send 400 msgUserFetchError)
      | FetchResult.ok u =>
        ({ session with accessToken := some token, user := some u, oauthState := none },
          HttpResponse.redirect "/dashboard.html")

/-- A guild as returned by the user-guild listing: `permissions` is the
decimal bitmask string, possibly absent or null (`none`) or empty. -/
structure Guild where
  id : String
  name : String
  icon : Option String
  owner : Bool
  permissions : Option String
deriving DecidableEq

/-- The projection returned by `GET /guilds`: the permissions bitmask is
dropped (`server.js` lines 181-186). -/
structure GuildView where
  id : String
  name : String
  icon : Option String
  owner : Bool
deriving DecidableEq

def projectGuild (g : Guild) : GuildView :=
  { id := g.id, name := g.name, icon := g.icon, owner := g.owner }

/-- A Discord channel; `type` 0 is a text channel. -/
structure Channel where
  id : String
  type : Nat
deriving DecidableEq

def MANAGE_GUILD_PERMISSION : Nat := 0x20

/-- Horner evaluation of a decimal digit list. -/
def decDigitsToNat : List Char → Nat → Nat
  | [], acc => acc
  | c :: cs, acc => decDigitsToNat cs (acc * 10 + (c.toNat - 48))

/-- The JavaScript `BigInt` constructor on a decimal numeral string (the
shape Discord sends for permission bitmasks): arbitrary-precision, never
truncating, modelled exactly on `Nat`. -/
def parseDecimal (s : String) : Nat := decDigitsToNat s.data 0

/-- `BigInt(guild.permissions || "0")`: the falsy fallback followed by
arbitrary-precision decimal parsing. -/
def permBitmask (g : Guild) : Nat :=
  parseDecimal (if jsFalsy g.permissions then "0" else g.permissions.getD "0")

/-- The manage-server permission test of the `/guilds` filter:
`(permissions & 0x20n) !== 0n`. -/
def hasManagePerm (g : Guild) : Bool :=
  Nat.land (permBitmask g) MANAGE_GUILD_PERMISSION != 0

/-- `getChannels` from `discord.js` as observed by its caller: on a
successful response it returns the channels filtered to text channels
(type 0); on a non-ok response or a transport failure it throws, which the
caller observes as `none`. -/
def getChannels (fetchChannels : String → FetchResult (List Channel))
    (guildId : String) : Option (List Channel) :=
  match fetchChannels guildId with
  | FetchResult.ok allChannels => some (allChannels.filter (fun c => c.type == 0))
  | FetchResult.httpError _ => none
  | FetchResult.thrown => none

/-- The sequential per-guild probe loop of `server.js` lines 175-196: each
iteration tries the channel fetch inside its own try/catch, appending the
projected guild on success and skipping it on failure. -/
def probeLoop (channelsOf : String → Option (List Channel)) :
    List Guild → List GuildView
  | [] => []
  | g :: rest =>
    match channelsOf g.id with
    | some _ => projectGuild g :: probeLoop channelsOf rest
    | none => probeLoop channelsOf rest

/-- Result of the `/guilds` handler: a non-empty guild list, an empty list
with a diagnostic `debug` string, or the 500 error branch of the outer
try/catch. -/
inductive GuildsResponse where
  | okList (guilds : List GuildView)
  | okEmptyWith (debug : String)
  | serverError (details : String)
deriving DecidableEq

/-- Apostrophe character, used inside the permission debug message. -/
def apos : String := String.singleton (Char.ofNat 39)

/-- Debug string returned when the user belongs to no guild. -/
def NO_GUILDS : String := "User is not a member of any Discord servers"

/-- Debug string returned when no guild passes the manage-server filter. -/
def NO_MANAGE_PERMISSION : String :=
  "You don" ++ apos ++ "t have " ++ apos ++ "Manage Server" ++ apos ++
    " permission in any of your servers"

/-- Debug string returned when no probe succeeds. -/
def BOT_NOT_INSTALLED : String :=
  "The bot is not installed in any of your servers. Please invite the bot to your server first."

/-- The `GET /guilds` handler of `server.js` (lines 125-218) after a
successful authentication gate.  `fetched` is the outcome of
`getUserGuilds` (an `Except.error` models its thrown error reaching the
outer catch); `fetchChannels` is the raw per-guild outcome of the channel
listing used by the installation probe. -/
def guildsHandler (fetched : Except String (List Guild))
    (fetchChannels : String → FetchResult (List Channel)) : GuildsResponse :=
  match fetched with
  | Except.error e => GuildsResponse.serverError e
  | Except.ok userGuilds =>
    if userGuilds.length = 0 then
      GuildsResponse.okEmptyWith NO_GUILDS
    else
      if (userGuilds.filter hasManagePerm).length = 0 then
        GuildsResponse.okEmptyWith NO_MANAGE_PERMISSION
      else
        if (probeLoop (getChannels fetchChannels) (userGuilds.filter hasManagePerm)).length = 0 then
          GuildsResponse.okEmptyWith BOT_NOT_INSTALLED
        else
          GuildsResponse.okList (probeLoop (getChannels fetchChannels) (userGuilds.filter hasManagePerm))

/-- The guild list carried by a `/guilds` response (empty for the
diagnostic and error shapes). -/
def responseGuilds : GuildsResponse → List GuildView
  | GuildsResponse.okList gs => gs
  | GuildsResponse.okEmptyWith _ => []
  | GuildsResponse.serverError _ => []

/-- The sequential probe loop equals an order-preserving filter of the
permission-passing guilds followed by the projection. -/
theorem probeLoop_eq_filter_map (channelsOf : String → Option (List Channel))
    (gs : List Guild) :
    probeLoop channelsOf gs =
      (gs.filter (fun g => (channelsOf g.id).isSome)).map projectGuild := by
  induction gs with
  | nil => rfl
  | cons g rest ih =>
    cases h : channelsOf g.id <;> simp [probeLoop, List.filter_cons, h, ih]

/-- Claim C3: the callback validation runs in the fixed order
missing-state, session-expired, invalid-state, missing-code, each rejection
answering 400 with its own message; any mismatch between the received and
the stored state makes the result independent of the remote-call oracles
(no token exchange is issued); and the four messages are pairwise
distinct. -/
theorem c3_callback_validation_sequence (session : Session) (q : CallbackQuery)
    (te : String → FetchResult String) (uf : String → FetchResult UserProfile) :
    (jsFalsy q.state = true →
      handleCallback session q te uf = (session, HttpResponse.send 400 msgNoState)) ∧
    (jsFalsy q.state = false → jsFalsy session.oauthState = true →
      handleCallback session q te uf = (session, HttpResponse.send 400 msgSessionExpired)) ∧
    (jsFalsy q.state = false → jsFalsy session.oauthState = false →
      q.state ≠ session.oauthState →
      handleCallback session q te uf = (session, HttpResponse.send 400 msgInvalidState)) ∧
    (jsFalsy q.state = false → jsFalsy session.oauthState = false →
      q.state = session.oauthState → jsFalsy q.code = true →
      handleCallback session q te uf = (session, HttpResponse.send 400 msgMissingCode)) ∧
    (q.state ≠ session.oauthState → ∀ te2 uf2,
      handleCallback session q te uf = handleCallback session q te2 uf2) ∧
    (msgNoState ≠ msgSessionExpired ∧ msgNoState ≠ msgInvalidState ∧
      msgNoState ≠ msgMissingCode ∧ msgSessionExpired ≠ msgInvalidState ∧
      msgSessionExpired ≠ msgMissingCode ∧ msgInvalidState ≠ msgMissingCode) := by
  refine ⟨?_, ?_, ?_, ?_, ?_, ?_⟩
  · intro h1; simp [handleCallback, h1]
  · intro h1 h2; simp [handleCallback, h1, h2]
  · intro h1 h2 h3; simp [handleCallback, h1, h2, h3]
  · intro h1 h2 h3 h4; simp [handleCallback, h1, h2, h3, h4]
  · intro hne te2 uf2
    by_cases h1 : jsFalsy q.state = true <;>
      by_cases h2 : jsFalsy session.oauthState = true <;>
        simp [handleCallback, h1, h2, hne]
  · refine ⟨?_, ?_, ?_, ?_, ?_, ?_⟩ <;> decide

/-- Witness for C3: a callback with stored state `"a"` and received state
`"b"` rejects with the invalid-state message. -/
theorem c3_callback_validation_sequence_witness :
    handleCallback ⟨some "a", none, none⟩ ⟨some "c", some "b"⟩
        (fun _ => FetchResult.thrown) (fun _ => FetchResult.thrown)
      = (⟨some "a", none, none⟩, HttpResponse.send 400 msgInvalidState) :=
  (c3_callback_validation_sequence ⟨some "a", none, none⟩ ⟨some "c", some "b"⟩
    (fun _ => FetchResult.thrown) (fun _ => FetchResult.thrown)).2.2.1
    (by decide) (by decide) (by decide)

/-- Counterexample to claim C1: a callback on a session holding the stored
state `"abc"` that rejects at the missing-code step leaves `oauthState`
equal to `some "abc"` rather than clearing it. -/
theorem c1_state_survives_missing_code_rejection :
    (handleCallback ⟨some "abc", none, none⟩ ⟨none, some "abc"⟩
        (fun _ => FetchResult.thrown) (fun _ => FetchResult.thrown)).1.oauthState
      = some "abc" ∧
    (handleCallback ⟨some "abc", none, none⟩ ⟨none, some "abc"⟩
        (fun _ => FetchResult.thrown) (fun _ => FetchResult.thrown)).2
      = HttpResponse.send 400 msgMissingCode ∧
    some "abc" ≠ (none : Option String) :=
  ⟨rfl, rfl, by decide⟩

/-- Claim C1 amended: the session `oauthState` is cleared exactly on the
fully successful callback path (the dashboard redirect); on every rejecting
or failing path the stored value is left unchanged. -/
theorem c1_oauthState_cleared_iff_success (session : Session) (q : CallbackQuery)
    (te : String → FetchResult String) (uf : String → FetchResult UserProfile) :
    ((handleCallback session q te uf).2 = HttpResponse.redirect "/dashboard.html" →
      (handleCallback session q te uf).1.oauthState = none) ∧
    ((handleCallback session q te uf).2 ≠ HttpResponse.redirect "/dashboard.html" →
      (handleCallback session q te uf).1.oauthState = session.oauthState) := by
  simp only [handleCallback]
  split_ifs with h1 h2 h3 h4 <;> try simp
  cases hte : te (q.code.getD "") with
  | ok tok =>
    cases huf : uf tok with
    | ok u => simp [hte, huf]
    | httpError b => simp [hte, huf]
    | thrown => simp [hte, huf]
  | httpError b => simp [hte]
  | thrown => simp [hte]

/-- Witness for the amended C1: a fully successful callback ends with
`oauthState` cleared. -/
theorem c1_oauthState_cleared_iff_success_witness :
    (handleCallback ⟨some "s", none, none⟩ ⟨some "c", some "s"⟩
        (fun _ => FetchResult.ok "tok")
        (fun _ => FetchResult.ok ⟨"1", "u", none, "0"⟩)).1.oauthState = none :=
  (c1_oauthState_cleared_iff_success ⟨some "s", none, none⟩ ⟨some "c", some "s"⟩
    (fun _ => FetchResult.ok "tok")
    (fun _ => FetchResult.ok ⟨"1", "u", none, "0"⟩)).1 rfl

/-- Counterexample to claim C2: with a valid state and code, a successful
token exchange followed by a failing identity fetch leaves the session with
`accessToken` set and `user` absent. -/
theorem c2_token_without_user_counterexample :
    handleCallback ⟨some "s", none, none⟩ ⟨some "c", some "s"⟩
        (fun _ => FetchResult.ok "tok") (fun _ => FetchResult.httpError "boom")
      = (⟨some "s", some "tok", none⟩, HttpResponse.send 400 msgUserFetchError) :=
  rfl

/-- Claim C2 amended: starting from a session with neither token nor user,
`user` is only ever set on the successful redirect, and the only executions
ending with `accessToken` set but `user` absent are identity-fetch failures
(non-ok response or exception) after a successful token exchange, answered
by the user-fetch-error or callback-error message. -/
theorem c2_token_user_commit (session : Session) (q : CallbackQuery)
    (te : String → FetchResult String) (uf : String → FetchResult UserProfile)
    (hA : session.accessToken = none) (hU : session.user = none) :
    ((handleCallback session q te uf).1.user = none ∨
      (handleCallback session q te uf).2 = HttpResponse.redirect "/dashboard.html") ∧
    ((handleCallback session q te uf).1.accessToken ≠ none →
      (handleCallback session q te uf).1.user = none →
      ((handleCallback session q te uf).2 = HttpResponse.send 400 msgUserFetchError ∨
        (handleCallback session q te uf).2 = HttpResponse.send 400 msgCallbackError)) := by
  simp only [handleCallback]
  split_ifs with h1 h2 h3 h4 <;> try simp [hA, hU]
  cases hte : te (q.code.getD "") with
  | ok tok =>
    cases huf : uf tok with
    | ok u => simp [hte, huf]
    | httpError b => simp [hte, huf, hU]
    | thrown => simp [hte, huf, hU]
  | httpError b => simp [hte, hA, hU]
  | thrown => simp [hte, hA, hU]

/-- Witness for the amended C2: at the identity-fetch-failure input the
token-without-user outcome is answered by the user-fetch-error message. -/
theorem c2_token_user_commit_witness :
    (handleCallback ⟨some "s", none, none⟩ ⟨some "c", some "s"⟩
        (fun _ => FetchResult.ok "tok") (fun _ => FetchResult.httpError "e")).2
      = HttpResponse.send 400 msgUserFetchError ∨
    (handleCallback ⟨some "s", none, none⟩ ⟨some "c", some "s"⟩
        (fun _ => FetchResult.ok "tok") (fun _ => FetchResult.httpError "e")).2
      = HttpResponse.send 400 msgCallbackError :=
  (c2_token_user_commit ⟨some "s", none, none⟩ ⟨some "c", some "s"⟩
    (fun _ => FetchResult.ok "tok") (fun _ => FetchResult.httpError "e")
    rfl rfl).2 (by decide) rfl

/-- The provider authorization URL is never the dashboard location: its
fixed prefix alone is longer than the whole dashboard path. -/
theorem discordAuthUrl_ne_dashboard (clientId redirectUri st : String) :
    discordAuthUrl clientId redirectUri st ≠ "/dashboard.html" := by
  intro h
  have hl := congrArg String.length h
  simp only [discordAuthUrl, String.length_append] at hl
  have h1 : ("https://discord.com/oauth2/authorize?client_id=" : String).length = 47 := rfl
  have h2 : ("/dashboard.html" : String).length = 15 := rfl
  omega

/-- Claim C6: initiating login on a session that already carries a committed
(truthy) access token returns the unchanged session with the dashboard
redirect, so no new `oauthState` is stored and the response is never the
provider authorization URL. -/
theorem c6_login_idempotent_when_authenticated (session : Session)
    (newState : String) (saveOk : Bool) (clientId redirectUri : String)
    (h : jsFalsy session.accessToken = false) :
    handleLogin session newState saveOk clientId redirectUri
        = (session, HttpResponse.redirect "/dashboard.html") ∧
    (∀ st : String, (handleLogin session newState saveOk clientId redirectUri).2
        ≠ HttpResponse.redirect (discordAuthUrl clientId redirectUri st)) := by
  have he : handleLogin session newState saveOk clientId redirectUri
      = (session, HttpResponse.redirect "/dashboard.html") := by
    simp [handleLogin, h]
  refine ⟨he, ?_⟩
  intro st hc
  rw [he] at hc
  simp only [HttpResponse.redirect.injEq] at hc
  exact discordAuthUrl_ne_dashboard clientId redirectUri st hc.symm

/-- Witness for C6: a session holding the token `"tok"` re-enters login and
is sent straight to the dashboard. -/
theorem c6_login_idempotent_witness :
    handleLogin ⟨none, some "tok", none⟩ "fresh" true "cid" "uri"
      = (⟨none, some "tok", none⟩, HttpResponse.redirect "/dashboard.html") :=
  (c6_login_idempotent_when_authenticated ⟨none, some "tok", none⟩ "fresh" true
    "cid" "uri" (by decide)).1

/-- Claim C7: the callback never answers 500 — every non-redirect outcome is
a 400 with some message — and a thrown exception from either remote call is
funneled to the generic callback-error message. -/
theorem c7_callback_never_500 (session : Session) (q : CallbackQuery)
    (te : String → FetchResult String) (uf : String → FetchResult UserProfile) :
    (∀ st body, (handleCallback session q te uf).2 = HttpResponse.send st body →
      st = 400) ∧
    ((handleCallback session q te uf).2 ≠ HttpResponse.redirect "/dashboard.html" →
      ∃ body, (handleCallback session q te uf).2 = HttpResponse.send 400 body) ∧
    (jsFalsy q.state = false → jsFalsy session.oauthState = false →
      q.state = session.oauthState → jsFalsy q.code = false →
      (te (q.code.getD "") = FetchResult.thrown ∨
        (∃ tok, te (q.code.getD "") = FetchResult.ok tok ∧ uf tok = FetchResult.thrown)) →
      (handleCallback session q te uf).2 = HttpResponse.send 400 msgCallbackError) := by
  refine ⟨?_, ?_, ?_⟩
  · intro st body
    simp only [handleCallback]
    split_ifs with h1 h2 h3 h4 <;> try simp +contextual
    cases hte : te (q.code.getD "") with
    | ok tok =>
      cases huf : uf tok with
      | ok u => simp [hte, huf]
      | httpError b => simp +contextual [hte, huf]
      | thrown => simp +contextual [hte, huf]
    | httpError b => simp +contextual [hte]
    | thrown => simp +contextual [hte]
  · simp only [handleCallback]
    split_ifs with h1 h2 h3 h4 <;> try simp
    cases hte : te (q.code.getD "") with
    | ok tok =>
      cases huf : uf tok with
      | ok u => simp [hte, huf]
      | httpError b => simp [hte, huf]
      | thrown => simp [hte, huf]
    | httpError b => simp [hte]
    | thrown => simp [hte]
  · intro h1 h2 h3 h4 h5
    simp only [handleCallback, h1, h2, h3, h4]
    rcases h5 with h | ⟨tok, h, h6⟩
    · simp [h]
    · simp [h, h6]

/-- Witness for C7: a thrown token exchange on otherwise valid input is
answered by the 400 callback-error message. -/
theorem c7_callback_never_500_witness :
    (handleCallback ⟨some "s", none, none⟩ ⟨some "c", some "s"⟩
        (fun _ => FetchResult.thrown) (fun _ => FetchResult.thrown)).2
      = HttpResponse.send 400 msgCallbackError :=
  (c7_callback_never_500 ⟨some "s", none, none⟩ ⟨some "c", some "s"⟩
    (fun _ => FetchResult.thrown) (fun _ => FetchResult.thrown)).2.2
    (by decide) (by decide) (by decide) (by decide) (Or.inl rfl)

/-- Characterization of the `/guilds` handler on a successful guild fetch:
the three-stage filter with its three diagnostic messages, the surviving
guilds being the order-preserving, per-guild-isolated filter of the
permission-passing guilds mapped through the projection. -/
theorem guildsHandler_ok_characterization (gs : List Guild)
    (fetchChannels : String → FetchResult (List Channel)) :
    guildsHandler (Except.ok gs) fetchChannels =
      if gs = [] then GuildsResponse.okEmptyWith NO_GUILDS
      else if gs.filter hasManagePerm = [] then
        GuildsResponse.okEmptyWith NO_MANAGE_PERMISSION
      else if (gs.filter hasManagePerm).filter
          (fun g => (getChannels fetchChannels g.id).isSome) = [] then
        GuildsResponse.okEmptyWith BOT_NOT_INSTALLED
      else
        GuildsResponse.okList (((gs.filter hasManagePerm).filter
          (fun g => (getChannels fetchChannels g.id).isSome)).map projectGuild) := by
  by_cases h1 : gs = []
  · simp [guildsHandler, h1]
  · by_cases h2 : gs.filter hasManagePerm = []
    · simp [guildsHandler, List.length_eq_zero, h1, h2]
    · by_cases h3 : (gs.filter hasManagePerm).filter
          (fun g => (getChannels fetchChannels g.id).isSome) = []
      · simp [guildsHandler, List.length_eq_zero, probeLoop_eq_filter_map,
          List.map_eq_nil_iff, h1, h2, h3]
      · simp [guildsHandler, List.length_eq_zero, probeLoop_eq_filter_map,
          List.map_eq_nil_iff, h1, h2, h3]

/-- Claim C4: the `/guilds` result is the empty list with the no-guilds
message when the fetched list is empty, the empty list with the
no-manage-permission message when no guild passes the permission filter,
the empty list with the bot-not-installed message when no probe succeeds,
and otherwise exactly the permission-passing guilds whose probe succeeds,
projected to id, name, icon and owner; a failing probe excludes only its
own guild, since the result is a pointwise filter over the others. -/
theorem c4_guilds_reconciliation (gs : List Guild)
    (fetchChannels : String → FetchResult (List Channel)) :
    guildsHandler (Except.ok gs) fetchChannels =
      if gs = [] then GuildsResponse.okEmptyWith NO_GUILDS
      else if gs.filter hasManagePerm = [] then
        GuildsResponse.okEmptyWith NO_MANAGE_PERMISSION
      else if (gs.filter hasManagePerm).filter
          (fun g => (getChannels fetchChannels g.id).isSome) = [] then
        GuildsResponse.okEmptyWith BOT_NOT_INSTALLED
      else
        GuildsResponse.okList (((gs.filter hasManagePerm).filter
          (fun g => (getChannels fetchChannels g.id).isSome)).map projectGuild) :=
  guildsHandler_ok_characterization gs fetchChannels

/-- Claim C9: the guild list of every `/guilds` response equals the ordered
filter of the fetched list, and in particular is an order-preserving
subsequence of the fetched list (projected). -/
theorem c9_guilds_order_preserved (gs : List Guild)
    (fetchChannels : String → FetchResult (List Channel)) :
    responseGuilds (guildsHandler (Except.ok gs) fetchChannels)
        = ((gs.filter hasManagePerm).filter
          (fun g => (getChannels fetchChannels g.id).isSome)).map projectGuild ∧
    List.Sublist (responseGuilds (guildsHandler (Except.ok gs) fetchChannels))
      (gs.map projectGuild) := by
  have he : responseGuilds (guildsHandler (Except.ok gs) fetchChannels)
      = ((gs.filter hasManagePerm).filter
        (fun g => (getChannels fetchChannels g.id).isSome)).map projectGuild := by
    rw [guildsHandler_ok_characterization]
    split_ifs with h1 h2 h3
    · simp [responseGuilds, h1]
    · simp [responseGuilds, h2]
    · simp [responseGuilds, h3]
    · simp [responseGuilds]
  refine ⟨he, ?_⟩
  rw [he]
  exact List.Sublist.map projectGuild
    ((List.filter_sublist (gs.filter hasManagePerm)).trans (List.filter_sublist gs))

/-- Guild with permissions string `"8"`: bit 3 only. -/
def guildPerm8 : Guild :=
  { id := "g8", name := "Eight", icon := none, owner := false, permissions := some "8" }

/-- Guild with permissions string `"32"`: exactly the manage-server bit. -/
def guildPerm32 : Guild :=
  { id := "g32", name := "ThirtyTwo", icon := none, owner := false, permissions := some "32" }

/-- Guild with permissions string `"4294967328"`: the manage-server bit plus
a bit beyond 32-bit range. -/
def guildPermBig : Guild :=
  { id := "gBig", name := "Big", icon := none, owner := true,
    permissions := some "4294967328" }

/-- Claim C5: the permission filter excludes the bit-3-only guild, includes
the 0x20 guild and includes the guild whose bitmask exceeds 32 bits, with
exact (arbitrary-precision) arithmetic. -/
theorem c5_permission_bit_test :
    hasManagePerm guildPerm8 = false ∧
    hasManagePerm guildPerm32 = true ∧
    hasManagePerm guildPermBig = true ∧
    [guildPerm8, guildPerm32, guildPermBig].filter hasManagePerm
      = [guildPerm32, guildPermBig] ∧
    permBitmask guildPermBig = 4294967328 := by
  refine ⟨?_, ?_, ?_, ?_, ?_⟩ <;> decide

/-- Claim C10: a guild whose permissions field is absent, null or empty is
given the bitmask 0 by the falsy fallback and is excluded by the permission
filter of every guild list. -/
theorem c10_permissions_fallback_excludes (gs : List Guild) (g : Guild)
    (h : g.permissions = none ∨ g.permissions = some "") :
    permBitmask g = 0 ∧ hasManagePerm g = false ∧ g ∉ gs.filter hasManagePerm := by
  have hb : permBitmask g = 0 := by
    rcases h with h | h <;>
      simp [permBitmask, jsFalsy, h, parseDecimal, decDigitsToNat]
  have hm : hasManagePerm g = false := by
    simp only [hasManagePerm, hb]
    decide
  refine ⟨hb, hm, ?_⟩
  intro hmem
  have := (List.mem_filter.mp hmem).2
  rw [hm] at this
  exact Bool.false_ne_true this

/-- Witness for C10: a guild with an absent permissions field is excluded
from the filter of the singleton list containing it. -/
theorem c10_permissions_fallback_excludes_witness :
    permBitmask ⟨"g", "NoPerms", none, false, none⟩ = 0 ∧
    hasManagePerm ⟨"g", "NoPerms", none, false, none⟩ = false ∧
    (⟨"g", "NoPerms", none, false, none⟩ : Guild)
      ∉ [(⟨"g", "NoPerms", none, false, none⟩ : Guild)].filter hasManagePerm :=
  c10_permissions_fallback_excludes [⟨"g", "NoPerms", none, false, none⟩]
    ⟨"g", "NoPerms", none, false, none⟩ (Or.inl rfl)

end ChatPulse
